import Mathlib

/-!
# Verification of the YouTube analysis pipeline (Test_SpeedForce)

Shallow embedding of the job orchestrator (`analysisService.js`), the
segment fan-out detector (`gptZeroService.js`), the record store
(`database.js` / `dbOperations`) and the read-side result projection
(`routes/result.js`).

Modelling conventions:
* JavaScript `undefined`/`null` fields become `Option`.
* JS truthiness on strings ("" is falsy) and on numbers (0 is falsy) is
  modelled explicitly where the source branches on it.
* The external detector (GPTZero HTTP call) is a parameter
  `detect : String → DetectOutcome`: `detectAIProbability` catches every
  exception and returns either a success payload or `{success:false, error}`,
  so its observable behaviour is exactly one such outcome per input text.
* Probabilities are rationals (the source holds IEEE doubles, but every
  claim here is about exact aggregation structure, not rounding).
-/

set_option maxHeartbeats 1000000

namespace SpeedForce

/-- JS truthiness of a possibly-absent string field: `undefined`/`null` and
`""` are falsy, every other string is truthy. -/
def jsTruthyStr : Option String → Bool
  | none => false
  | some s => !(s == "")

/-- `String.prototype.trim()`: strip leading and trailing whitespace.
(Defined structurally on the character list so that concrete inputs
evaluate inside the kernel.) -/
def jsTrim (s : String) : String :=
  String.mk (((s.data.dropWhile Char.isWhitespace).reverse.dropWhile
    Char.isWhitespace).reverse)

/-- Outcome of one call of `GPTZeroService.detectAIProbability(text)`:
the method catches all exceptions, so it always resolves, either to
`{success:true, aiProbability, prediction, confidence, ...}` or to
`{success:false, error}` (gptZeroService.js lines 25-79). -/
inductive DetectOutcome where
  | ok (aiProbability : ℚ) (prediction : String) (confidence : ℚ)
  | fail (error : String)
  deriving DecidableEq, Repr

/-- One transcript segment as consumed by the fan-out: only the `text`
field is branched on (the other fields are spread through unchanged). -/
structure Segment where
  text : Option String
  deriving DecidableEq, Repr

/-- The `ai_detection` object attached to a processed segment
(gptZeroService.js lines 111-137).  On a detector failure only
`error`/`details` are set (`ai_probability` is absent). -/
structure AiDetection where
  error : Option String := none
  ai_probability : Option ℚ := none
  prediction : Option String := none
  confidence : Option ℚ := none
  deriving DecidableEq, Repr

/-- A segment after the fan-out loop: the original segment spread together
with its `ai_detection` result. -/
structure ProcSegment where
  text : Option String
  ai_detection : AiDetection
  deriving DecidableEq, Repr

/-- `segment.text && segment.text.trim().length > 0`
(gptZeroService.js line 104): the text field is present, truthy, and
trims to a non-empty string. -/
def segTextNonEmpty : Option String → Bool
  | none => false
  | some t => !(t == "") && !(jsTrim t == "")

/-- The body of one iteration of the fan-out loop
(gptZeroService.js lines 104-137): non-empty text goes to the detector and
gets either a result payload or an error marker; empty text gets the
synthetic `{ai_probability: 0, prediction: "empty", confidence: 0}` result
without any detector call. -/
def processSegment (detect : String → DetectOutcome) (seg : Segment) : ProcSegment :=
  if segTextNonEmpty seg.text then
    match detect (jsTrim (seg.text.getD "")) with
    | .ok p pred conf =>
        { text := seg.text
          ai_detection :=
            { error := none, ai_probability := some p
              prediction := some pred, confidence := some conf } }
    | .fail e =>
        { text := seg.text
          ai_detection :=
            { error := some e, ai_probability := none
              prediction := none, confidence := none } }
  else
    { text := seg.text
      ai_detection :=
        { error := none, ai_probability := some 0
          prediction := some "empty", confidence := some 0 } }

/-- Transcript shape handed to `processTranscriptionSegments`:
`segments = none` models a missing / non-array `segments` property
(the `!transcription.segments || !Array.isArray(...)` guard). -/
structure Transcription where
  segments : Option (List Segment)
  deriving DecidableEq, Repr

/-- Return shape of `processTranscriptionSegments`
(gptZeroService.js lines 182-195). -/
structure FanoutResult where
  success : Bool
  error : Option String := none
  segments : List ProcSegment
  overall_ai_probability : ℚ := 0
  processed_segments : Nat := 0
  total_segments : Nat := 0
  deriving DecidableEq, Repr

/-- `results.filter((r) => r.ai_detection && !r.ai_detection.error)`
(gptZeroService.js lines 167-169); `ai_detection` is always set by the
loop, and `!r.ai_detection.error` is JS truthiness on the error string. -/
def validResults (results : List ProcSegment) : List ProcSegment :=
  results.filter (fun r => !(jsTruthyStr r.ai_detection.error))

/-- The aggregate probability computed at gptZeroService.js lines 170-176:
sum of `(r.ai_detection.ai_probability || 0)` over the valid results,
divided by their count; `0` when there are none. -/
def overallFromResults (results : List ProcSegment) : ℚ :=
  let valid := validResults results
  if 0 < valid.length then
    (valid.map (fun r => r.ai_detection.ai_probability.getD 0)).sum / valid.length
  else 0

/-- `GPTZeroService.processTranscriptionSegments(transcription)`
(gptZeroService.js lines 81-197).  A transcript without a segments array
throws `"Invalid transcription format"`, caught by the surrounding
try/catch into `{success:false, error, segments: transcription.segments || []}`.
Otherwise every segment is processed in order (the loop increments
`processedCount` on both the normal and the error branch, so it always
ends at the segment count) and the aggregate is computed over the
non-error results. -/
def processTranscriptionSegments (detect : String → DetectOutcome)
    (transcription : Transcription) : FanoutResult :=
  match transcription.segments with
  | none =>
      { success := false, error := some "Invalid transcription format"
        segments := [] }
  | some segs =>
      let results := segs.map (processSegment detect)
      { success := true
        segments := results
        overall_ai_probability := overallFromResults results
        processed_segments := segs.length
        total_segments := segs.length }

/-! ### Input-level (specification-side) characterisation of the aggregate -/

/-- Input-level predicate: this segment's detection call fails, i.e. its
text is non-empty and the detector reports an error.  (Spec side of the
refinement: "M detector failures".) -/
def segFails (detect : String → DetectOutcome) (seg : Segment) : Bool :=
  segTextNonEmpty seg.text &&
    (match detect (jsTrim (seg.text.getD "")) with
     | .fail _ => true
     | .ok _ _ _ => false)

/-- Input-level probability contributed by a segment: the detector's
probability for a successfully analysed non-empty segment, `0` for an
empty segment (synthetic "empty" result) and `0` for a failing one. -/
def segProb (detect : String → DetectOutcome) (seg : Segment) : ℚ :=
  if segTextNonEmpty seg.text then
    match detect (jsTrim (seg.text.getD "")) with
    | .ok p _ _ => p
    | .fail _ => 0
  else 0

/-- Modelled from the spec (§4.3 aggregate rule as claimed): arithmetic mean
of `ai_probability` over all segments that carry no error marker — the
empty-text segments, which receive a synthetic zero-probability non-error
result, are included.  Zero when no such segment exists. -/
def specMeanNonError (detect : String → DetectOutcome) (segs : List Segment) : ℚ :=
  let good := segs.filter (fun s => !(segFails detect s))
  if 0 < good.length then (good.map (segProb detect)).sum / good.length else 0

/-- Modelled from the spec (§8 segment fan-out property as claimed in C3):
arithmetic mean of `ai_probability` over exactly the `N-K-M` segments that
are neither empty-text nor detector failures; zero when that set is empty. -/
def specMeanNonEmptyNonError (detect : String → DetectOutcome)
    (segs : List Segment) : ℚ :=
  let good := segs.filter (fun s => segTextNonEmpty s.text && !(segFails detect s))
  if 0 < good.length then (good.map (segProb detect)).sum / good.length else 0

/-- Hypothesis on the external detector: failure messages are non-empty
strings (an axios/`Error` message in the source is never the empty
string).  Under JS truthiness an empty-string error marker would not be
recognised by the `!r.ai_detection.error` filter. -/
def detectorErrorsNonEmpty (detect : String → DetectOutcome) : Prop :=
  ∀ s e, detect s = .fail e → e ≠ ""

/-- The error marker of a processed segment is JS-truthy exactly when the
segment's detection call fails. -/
theorem jsTruthy_error_eq_segFails {detect : String → DetectOutcome}
    (hd : detectorErrorsNonEmpty detect) (seg : Segment) :
    jsTruthyStr (processSegment detect seg).ai_detection.error = segFails detect seg := by
  unfold processSegment segFails
  by_cases h : segTextNonEmpty seg.text = true
  · simp only [h, if_true, Bool.true_and]
    cases hdet : detect (jsTrim (seg.text.getD "")) with
    | ok p pred conf => simp [jsTruthyStr]
    | fail e =>
        have hne : e ≠ "" := hd _ _ hdet
        simp [jsTruthyStr, hne]
  · simp only [Bool.not_eq_true] at h
    simp [h, jsTruthyStr]

/-- The probability read off a non-failing processed segment is the
input-level probability. -/
theorem prob_eq_segProb {detect : String → DetectOutcome} (seg : Segment)
    (h : segFails detect seg = false) :
    (processSegment detect seg).ai_detection.ai_probability.getD 0 = segProb detect seg := by
  unfold processSegment segProb
  by_cases ht : segTextNonEmpty seg.text = true
  · unfold segFails at h
    rw [ht] at h
    simp only [Bool.true_and] at h
    cases hdet : detect (jsTrim (seg.text.getD "")) with
    | ok p pred conf => simp [ht]
    | fail e => rw [hdet] at h; simp at h
  · simp only [Bool.not_eq_true] at ht
    simp [ht]

/-- The valid (non-error) results are exactly the processed images of the
input segments whose detection does not fail. -/
theorem validResults_map {detect : String → DetectOutcome}
    (hd : detectorErrorsNonEmpty detect) (segs : List Segment) :
    validResults (segs.map (processSegment detect)) =
      (segs.filter (fun s => !(segFails detect s))).map (processSegment detect) := by
  induction segs with
  | nil => rfl
  | cons s rest ih =>
      unfold validResults at *
      simp only [List.map_cons, List.filter_cons]
      rw [jsTruthy_error_eq_segFails hd s]
      cases h : segFails detect s with
      | true => simpa [h] using ih
      | false => simp [h, ih]

/-- Sum of the probabilities over the non-failing processed segments equals
the sum of the input-level probabilities. -/
theorem sum_valid_probs {detect : String → DetectOutcome} (segs : List Segment)
    (hall : ∀ s ∈ segs, segFails detect s = false) :
    ((segs.map (processSegment detect)).map
        (fun r => r.ai_detection.ai_probability.getD 0)).sum =
      (segs.map (segProb detect)).sum := by
  induction segs with
  | nil => rfl
  | cons s rest ih =>
      simp only [List.map_cons, List.sum_cons]
      rw [prob_eq_segProb s (hall s (List.mem_cons_self s rest)),
        ih (fun t ht => hall t (List.mem_cons_of_mem s ht))]

/-- Core fan-out lemma: on a transcript with a segments array, the fan-out
returns success, processes every segment, reports both counts as the
segment count, and its aggregate equals the input-level mean over the
non-failing segments. -/
theorem fanout_characterisation {detect : String → DetectOutcome}
    (hd : detectorErrorsNonEmpty detect) (segs : List Segment) :
    processTranscriptionSegments detect ⟨some segs⟩ =
      { success := true
        error := none
        segments := segs.map (processSegment detect)
        overall_ai_probability := specMeanNonError detect segs
        processed_segments := segs.length
        total_segments := segs.length } := by
  unfold processTranscriptionSegments
  simp only
  congr 1
  unfold overallFromResults specMeanNonError
  rw [validResults_map hd segs]
  simp only [List.length_map]
  by_cases hlen : 0 < (segs.filter (fun s => !(segFails detect s))).length
  · rw [if_pos hlen, if_pos hlen]
    rw [sum_valid_probs (segs.filter (fun s => !(segFails detect s)))]
    intro s hs
    have := List.of_mem_filter hs
    simpa using this
  · rw [if_neg hlen, if_neg hlen]


/-- Auxiliary counting fact: a list splits into the elements failing a
Boolean predicate and those satisfying it. -/
theorem length_filter_not_add {α : Type} (p : α → Bool) (l : List α) :
    (l.filter (fun a => !(p a))).length + (l.filter p).length = l.length := by
  induction l with
  | nil => rfl
  | cons a t ih => cases h : p a <;> simp [List.filter_cons, h] <;> omega

/-! ### Claims about the segment fan-out (C3, C5, C6) -/

/-- A detector used in concrete evaluations: succeeds on every text with
probability 1 (so a non-empty segment contributes 1 to the mean). -/
def detectAllOne : String → DetectOutcome := fun _ => .ok 1 "ai" 1

/-- A two-segment transcript: one empty-text segment, one non-empty. -/
def segsOneEmpty : List Segment := [{ text := some "" }, { text := some "hello" }]

/-- C3 (counterexample): on a transcript with `N = 2` segments of which
`K = 1` is empty-text and `M = 0` fail, the code's aggregate is `1/2`
(the empty segment's synthetic zero-probability result passes the
`!error` filter and enters the denominator), while the mean over the
`N-K-M = 1` remaining segments is `1`; the claim's equality fails. -/
theorem c3_counterexample :
    (processTranscriptionSegments detectAllOne ⟨some segsOneEmpty⟩).overall_ai_probability = 1/2 ∧
    specMeanNonEmptyNonError detectAllOne segsOneEmpty = 1 ∧
    (processTranscriptionSegments detectAllOne ⟨some segsOneEmpty⟩).overall_ai_probability ≠
      specMeanNonEmptyNonError detectAllOne segsOneEmpty := by
  have e1 : (processTranscriptionSegments detectAllOne ⟨some segsOneEmpty⟩).overall_ai_probability
      = ((0 : ℚ) + (1 + 0)) / ((2 : ℕ) : ℚ) := rfl
  have e2 : specMeanNonEmptyNonError detectAllOne segsOneEmpty
      = ((1 : ℚ) + 0) / ((1 : ℕ) : ℚ) := rfl
  rw [e1, e2]
  norm_num

/-- C3 (amended): for a transcript of `N` segments of which `M` produce
detector failures, the aggregate is the mean over the `N - M` non-failing
segments — the `K` empty-text segments are included in the mean with
probability `0`, not excluded — and it is `0` when `N - M = 0`;
`processed_segments` and `total_segments` both report `N`. -/
theorem c3_amended_mean_over_non_failing {detect : String → DetectOutcome}
    (hd : detectorErrorsNonEmpty detect) (segs : List Segment) :
    (processTranscriptionSegments detect ⟨some segs⟩).overall_ai_probability =
      (if 0 < segs.length - (segs.filter (segFails detect)).length then
        ((segs.filter (fun s => !(segFails detect s))).map (segProb detect)).sum /
          (((segs.length - (segs.filter (segFails detect)).length : ℕ)) : ℚ)
       else 0) ∧
    (processTranscriptionSegments detect ⟨some segs⟩).processed_segments = segs.length ∧
    (processTranscriptionSegments detect ⟨some segs⟩).total_segments = segs.length := by
  rw [fanout_characterisation hd segs]
  refine ⟨?_, rfl, rfl⟩
  have hadd := length_filter_not_add (segFails detect) segs
  have hcount : (segs.filter (fun s => !(segFails detect s))).length =
      segs.length - (segs.filter (segFails detect)).length := by omega
  simp only [specMeanNonError]
  rw [hcount]

/-- C3 witness: concrete instantiation of the amended statement on the
two-segment transcript with one empty segment. -/
theorem c3_witness :
    (processTranscriptionSegments detectAllOne ⟨some segsOneEmpty⟩).overall_ai_probability =
      (if 0 < segsOneEmpty.length - (segsOneEmpty.filter (segFails detectAllOne)).length then
        ((segsOneEmpty.filter (fun s => !(segFails detectAllOne s))).map (segProb detectAllOne)).sum /
          (((segsOneEmpty.length - (segsOneEmpty.filter (segFails detectAllOne)).length : ℕ)) : ℚ)
       else 0) ∧
    (processTranscriptionSegments detectAllOne ⟨some segsOneEmpty⟩).processed_segments = segsOneEmpty.length ∧
    (processTranscriptionSegments detectAllOne ⟨some segsOneEmpty⟩).total_segments = segsOneEmpty.length :=
  c3_amended_mean_over_non_failing (fun _ _ h => DetectOutcome.noConfusion h) segsOneEmpty

/-- C5: for every transcript with a segments array, the reported overall
probability is the arithmetic mean of `ai_probability` over the segments
whose result carries no error marker (empty-text segments, which get a
synthetic zero-probability non-error result, included), zero when no
non-error result exists; the output reports both segment counts. -/
theorem c5_overall_is_mean_non_error {detect : String → DetectOutcome}
    (hd : detectorErrorsNonEmpty detect) (segs : List Segment) :
    (processTranscriptionSegments detect ⟨some segs⟩).overall_ai_probability =
      specMeanNonError detect segs ∧
    (processTranscriptionSegments detect ⟨some segs⟩).processed_segments = segs.length ∧
    (processTranscriptionSegments detect ⟨some segs⟩).total_segments = segs.length := by
  rw [fanout_characterisation hd segs]
  exact ⟨rfl, rfl, rfl⟩

/-- A detector that fails (with a non-empty message) on one specific text
and succeeds elsewhere, for concrete evaluation of the failure policy. -/
def detectFailOnBad : String → DetectOutcome := fun s =>
  if s = "bad" then .fail "boom" else .ok 1 "human" 1

/-- `detectFailOnBad` only produces the non-empty message `"boom"`. -/
theorem detectFailOnBad_nonempty : detectorErrorsNonEmpty detectFailOnBad := by
  intro s e h
  unfold detectFailOnBad at h
  by_cases hs : s = "bad"
  · rw [if_pos hs] at h; cases h; decide
  · rw [if_neg hs] at h; cases h

/-- A three-segment transcript whose middle segment makes the detector fail. -/
def segsWithFailure : List Segment :=
  [{ text := some "good one" }, { text := some "bad" }, { text := some "fine" }]

/-- C5 witness: concrete instantiation with a failing middle segment. -/
theorem c5_witness :
    (processTranscriptionSegments detectFailOnBad ⟨some segsWithFailure⟩).overall_ai_probability =
      specMeanNonError detectFailOnBad segsWithFailure ∧
    (processTranscriptionSegments detectFailOnBad ⟨some segsWithFailure⟩).processed_segments =
      segsWithFailure.length ∧
    (processTranscriptionSegments detectFailOnBad ⟨some segsWithFailure⟩).total_segments =
      segsWithFailure.length :=
  c5_overall_is_mean_non_error detectFailOnBad_nonempty segsWithFailure

/-- C6: a failure of one detection call never aborts the fan-out: the
result still reports success, every segment of the transcript is
processed (each independently of the others), the failing segment carries
its error marker, and the aggregate equals the mean over the non-failing
segments only (the failing one is excluded). -/
theorem c6_segment_failure_isolated {detect : String → DetectOutcome}
    (hd : detectorErrorsNonEmpty detect) (segs : List Segment)
    (i : Nat) (hi : i < segs.length) (e : String)
    (hfail : detect (jsTrim ((segs.get ⟨i, hi⟩).text.getD "")) = .fail e)
    (hne : segTextNonEmpty (segs.get ⟨i, hi⟩).text = true) :
    (processTranscriptionSegments detect ⟨some segs⟩).success = true ∧
    (processTranscriptionSegments detect ⟨some segs⟩).segments =
      segs.map (processSegment detect) ∧
    ((processTranscriptionSegments detect ⟨some segs⟩).segments.getD i
        { text := none, ai_detection := {} }).ai_detection.error = some e ∧
    (processTranscriptionSegments detect ⟨some segs⟩).overall_ai_probability =
      specMeanNonError detect segs := by
  rw [fanout_characterisation hd segs]
  refine ⟨rfl, rfl, ?_, rfl⟩
  show ((segs.map (processSegment detect)).getD i
      { text := none, ai_detection := {} }).ai_detection.error = some e
  rw [List.getD_eq_getElem?_getD, List.getElem?_map, List.getElem?_eq_getElem hi]
  simp only [Option.map_some', Option.getD_some]
  unfold processSegment
  simp only [List.get_eq_getElem] at hfail hne
  rw [if_pos hne, hfail]

/-- C6 witness: concrete instantiation at the failing middle segment of
`segsWithFailure`. -/
theorem c6_witness :
    (processTranscriptionSegments detectFailOnBad ⟨some segsWithFailure⟩).success = true ∧
    (processTranscriptionSegments detectFailOnBad ⟨some segsWithFailure⟩).segments =
      segsWithFailure.map (processSegment detectFailOnBad) ∧
    ((processTranscriptionSegments detectFailOnBad ⟨some segsWithFailure⟩).segments.getD 1
        { text := none, ai_detection := {} }).ai_detection.error = some "boom" ∧
    (processTranscriptionSegments detectFailOnBad ⟨some segsWithFailure⟩).overall_ai_probability =
      specMeanNonError detectFailOnBad segsWithFailure := by
  have h := c6_segment_failure_isolated detectFailOnBad_nonempty segsWithFailure 1
    (by decide) "boom" (by decide) (by decide)
  exact ⟨h.1, h.2.1, h.2.2.1, h.2.2.2⟩

/-! ## The orchestrator: `AnalysisService.startAnalysis` (analysisService.js)

The orchestrator is embedded as a function of an environment `Env` that
fixes the generated job id, the demo-mode flag
(`!process.env.ELEVENLABS_API_KEY || !process.env.GPTZERO_API_KEY`), the
outcome of each external stage adapter, the detector behaviour and the
elapsed wall-clock time, and returns the resolved value together with the
ordered trace of database writes and external-stage invocations. -/

/-- The serialized transcript payload passed to a `completed` status
write: in real mode `JSON.stringify(aiDetectionResult.segments || ...)` —
a JS array is always truthy (even `[]`), so the fan-out's segments are
always chosen — and in demo mode the stringified demo fixture transcript. -/
inductive TransPayload where
  | real (segments : List ProcSegment)
  | demoFixture
  deriving DecidableEq, Repr

/-- The serialized detection payload passed to a `completed` status write:
in real mode `{overall_ai_probability: x || 0, processed_segments: p || 0,
total_segments: t || 0}`, in demo mode the demo fixture aggregate. -/
inductive AiProbsPayload where
  | real (overall : ℚ) (processed total : Nat)
  | demoFixture
  deriving DecidableEq, Repr

/-- The `additionalData` argument of `dbOperations.updateStatus`
(database.js lines 162-206): each field is optional and only written to
the row when present (and JS-truthy). -/
structure UpdateData where
  screenshotPath : Option String := none
  audioPath : Option String := none
  transcription : Option TransPayload := none
  aiProbabilities : Option AiProbsPayload := none
  errorMessage : Option String := none
  processingTime : Option Nat := none
  deriving DecidableEq, Repr

/-- One observable step of a run: a record-store write or an
external-stage invocation. -/
inductive Event where
  | dbInsert (id url : String)
  | dbUpdate (id status : String) (data : UpdateData)
  | callDemo
  | callVideo
  | callAudio
  | callTranscribe
  | callDetect
  deriving DecidableEq, Repr

/-- Payload of a successful `youtubeService.processVideo` call
(screenshot + downloaded audio). -/
structure VideoData where
  screenshotPath : String
  audioPath : String
  deriving DecidableEq, Repr

/-- Payload of a successful `audioService.processAudio` call (the WAV
conversion). -/
structure AudioData where
  wavPath : String
  deriving DecidableEq, Repr

/-- Payload of a successful `demoService.simulateAnalysis` call. -/
structure DemoData where
  screenshot_path : String
  audio_path : String
  deriving DecidableEq, Repr

/-- Uniform adapter outcome `{success:true, ...} | {success:false, error}`:
every adapter catches its own exceptions (youtubeService.processVideo,
audioService.processAudio, elevenLabsService.transcribeAudio,
demoService.simulateAnalysis all end in a catch returning
`{success:false, error}`). -/
inductive StageResult (α : Type) where
  | ok (val : α)
  | fail (error : String)
  deriving DecidableEq, Repr

/-- Environment of one `startAnalysis(youtubeUrl)` invocation: the
generated UUID, the demo-mode flag, each adapter's outcome, the detector
behaviour and the elapsed time `Date.now() - startTime` observed at the
terminal write. -/
structure Env where
  analysisId : String
  youtubeUrl : String
  isDemoMode : Bool
  demoResult : StageResult DemoData
  videoResult : StageResult VideoData
  audioResult : StageResult AudioData
  transcriptionResult : StageResult Transcription
  detect : String → DetectOutcome
  elapsed : Nat

/-- The `finalResult` object assembled at analysisService.js lines 66-84
(demo) and 146-166 (real mode). -/
structure FinalResult where
  id : String
  youtube_url : String
  status : String
  screenshot_path : String
  audio_path : String
  transcription : TransPayload
  ai_probabilities : AiProbsPayload
  processing_time : Nat
  demo_mode : Bool
  deriving DecidableEq, Repr

/-- The value produced by the try/catch body of `startAnalysis`:
`{success:true, analysis_id, result}` or
`{success:false, analysis_id, error, processing_time}`. -/
inductive AnalysisReturn where
  | ok (analysis_id : String) (result : FinalResult)
  | err (analysis_id : String) (error : String) (processing_time : Nat)
  deriving DecidableEq, Repr

/-- The try/catch body of `AnalysisService.startAnalysis`
(analysisService.js lines 30-197), before the `finally` block is applied:
insert the job row (`status='pending'`), advance to `processing`, then
either run the demo simulation or the four real stages in order, with any
adapter failure thrown into the catch block, which persists
`status='failed'` with the error message and elapsed time. -/
def startAnalysisTry (env : Env) : AnalysisReturn × List Event :=
  let pre : List Event :=
    [.dbInsert env.analysisId env.youtubeUrl,
     .dbUpdate env.analysisId "processing" {}]
  if env.isDemoMode then
    match env.demoResult with
    | .fail e =>
        let msg := "Demo analysis failed: " ++ e
        (.err env.analysisId msg env.elapsed,
         pre ++ [.callDemo,
           .dbUpdate env.analysisId "failed"
             { errorMessage := some msg, processingTime := some env.elapsed }])
    | .ok d =>
        (.ok env.analysisId
          { id := env.analysisId
            youtube_url := env.youtubeUrl
            status := "completed"
            screenshot_path := d.screenshot_path
            audio_path := d.audio_path
            transcription := .demoFixture
            ai_probabilities := .demoFixture
            processing_time := env.elapsed
            demo_mode := true },
         pre ++ [.callDemo,
           .dbUpdate env.analysisId "completed"
             { screenshotPath := some d.screenshot_path
               audioPath := some d.audio_path
               transcription := some .demoFixture
               aiProbabilities := some .demoFixture
               processingTime := some env.elapsed }])
  else
    match env.videoResult with
    | .fail e =>
        let msg := "Video processing failed: " ++ e
        (.err env.analysisId msg env.elapsed,
         pre ++ [.callVideo,
           .dbUpdate env.analysisId "failed"
             { errorMessage := some msg, processingTime := some env.elapsed }])
    | .ok v =>
        match env.audioResult with
        | .fail e =>
            let msg := "Audio conversion failed: " ++ e
            (.err env.analysisId msg env.elapsed,
             pre ++ [.callVideo,
               .dbUpdate env.analysisId "video_processed"
                 { screenshotPath := some v.screenshotPath },
               .callAudio,
               .dbUpdate env.analysisId "failed"
                 { errorMessage := some msg, processingTime := some env.elapsed }])
        | .ok a =>
            match env.transcriptionResult with
            | .fail e =>
                let msg := "Transcription failed: " ++ e
                (.err env.analysisId msg env.elapsed,
                 pre ++ [.callVideo,
                   .dbUpdate env.analysisId "video_processed"
                     { screenshotPath := some v.screenshotPath },
                   .callAudio,
                   .dbUpdate env.analysisId "audio_converted"
                     { audioPath := some a.wavPath },
                   .callTranscribe,
                   .dbUpdate env.analysisId "failed"
                     { errorMessage := some msg, processingTime := some env.elapsed }])
            | .ok transcription =>
                -- Step 4: the fan-out; `if (!aiDetectionResult.success)` only
                -- emits `logger.warn`, the run continues either way
                -- (analysisService.js lines 140-142).
                let det := processTranscriptionSegments env.detect transcription
                let finalResult : FinalResult :=
                  { id := env.analysisId
                    youtube_url := env.youtubeUrl
                    status := "completed"
                    screenshot_path := v.screenshotPath
                    audio_path := a.wavPath
                    transcription := .real det.segments
                    ai_probabilities :=
                      .real det.overall_ai_probability det.processed_segments
                        det.total_segments
                    processing_time := env.elapsed
                    demo_mode := false }
                (.ok env.analysisId finalResult,
                 pre ++ [.callVideo,
                   .dbUpdate env.analysisId "video_processed"
                     { screenshotPath := some v.screenshotPath },
                   .callAudio,
                   .dbUpdate env.analysisId "audio_converted"
                     { audioPath := some a.wavPath },
                   .callTranscribe,
                   .dbUpdate env.analysisId "transcribed" {},
                   .callDetect,
                   .dbUpdate env.analysisId "completed"
                     { transcription := some (.real det.segments)
                       aiProbabilities :=
                         some (.real det.overall_ai_probability
                           det.processed_segments det.total_segments)
                       processingTime := some env.elapsed }])

/-- `AnalysisService.startAnalysis` including its `finally` block
(analysisService.js lines 198-211).  In demo mode the `finally` block
executes a bare `return;`, and in JavaScript a `return` inside `finally`
overrides the completion of the `try`/`catch` — so the promise resolves
to `undefined` (`none`), discarding the assembled return object.  In real
mode the `finally` block references `videoResult`, a `const` scoped to
the `try` block, so evaluating it throws a `ReferenceError` that its own
inner `catch` swallows after logging: the return value and the trace are
unaffected and no cleanup call is ever reached. -/
def startAnalysis (env : Env) : Option AnalysisReturn × List Event :=
  let r := startAnalysisTry env
  if env.isDemoMode then (none, r.2) else (some r.1, r.2)

/-! ### The record store (`database.js` `dbOperations`) -/

/-- One row of the `analysis_results` table, as written by the
orchestrator's own inserts/updates.  The serialized `transcription` /
`ai_probabilities` TEXT columns are represented by the structured payload
that was stringified into them (`JSON.stringify` of an array or object is
always a non-empty string, so the truthiness guards in `updateStatus`
always pass for these two fields when they are supplied). -/
structure JobRecord where
  id : String := ""
  youtube_url : String := ""
  status : String := ""
  screenshot_path : Option String := none
  audio_path : Option String := none
  transcription : Option TransPayload := none
  ai_probabilities : Option AiProbsPayload := none
  error_message : Option String := none
  processing_time : Option Nat := none
  deriving DecidableEq, Repr

/-- Applying one event to the job's row.  `insertAnalysis` creates the row
with `status='pending'` (database.js lines 148-159); `updateStatus` sets
the status and each `additionalData` field only if it is JS-truthy
(database.js lines 162-206): an absent or empty-string path/message and a
`0` `processingTime` leave the column unchanged (NULL if never written).
Stage-invocation events touch no row. -/
def applyEvent (r : JobRecord) : Event → JobRecord
  | .dbInsert id url => { id := id, youtube_url := url, status := "pending" }
  | .dbUpdate _ status d =>
      { r with
        status := status
        screenshot_path :=
          match d.screenshotPath with
          | some s => if s = "" then r.screenshot_path else some s
          | none => r.screenshot_path
        audio_path :=
          match d.audioPath with
          | some s => if s = "" then r.audio_path else some s
          | none => r.audio_path
        transcription :=
          match d.transcription with
          | some p => some p
          | none => r.transcription
        ai_probabilities :=
          match d.aiProbabilities with
          | some p => some p
          | none => r.ai_probabilities
        error_message :=
          match d.errorMessage with
          | some s => if s = "" then r.error_message else some s
          | none => r.error_message
        processing_time :=
          match d.processingTime with
          | some t => if t = 0 then r.processing_time else some t
          | none => r.processing_time }
  | _ => r

/-- The job's row at the end of a run: the run's event trace folded over
an initially blank row. -/
def runRecord (env : Env) : JobRecord :=
  ((startAnalysis env).2).foldl applyEvent {}

/-- A non-empty string prepended to anything yields a non-empty string
(every error message thrown by `startAnalysis` has a non-empty literal
prefix, so the truthiness guard on `errorMessage` always writes it). -/
theorem append_ne_empty_left (p e : String) (hp : p ≠ "") : ¬(p ++ e = "") := by
  intro h
  apply hp
  have hd : p.data ++ e.data = ([] : List Char) := congrArg String.data h
  have hp0 : p.data = [] := (List.append_eq_nil.mp hd).1
  cases p with
  | mk d => cases hp0; rfl

/-! ### Claims about the orchestrator (C1, C2, C4, C7, C9) -/

/-- A demo-mode environment whose simulation succeeds. -/
def envDemoOk : Env :=
  { analysisId := "job-demo"
    youtubeUrl := "https://youtu.be/abc123"
    isDemoMode := true
    demoResult := .ok { screenshot_path := "screenshots/demo.png"
                        audio_path := "data/audio/demo.wav" }
    videoResult := .ok { screenshotPath := "s.png", audioPath := "a.webm" }
    audioResult := .ok { wavPath := "a.wav" }
    transcriptionResult := .ok { segments := some [] }
    detect := detectAllOne
    elapsed := 2000 }

/-- C1 (the code bug): in demo mode the bare `return;` inside the
`finally` block overrides the `try`/`catch` completion, so
`startAnalysis` resolves to `undefined` instead of the documented
`{success, jobId, ...}` object — for every demo-mode environment,
whatever the simulation outcome. -/
theorem c1_demo_mode_returns_undefined (env : Env)
    (h : env.isDemoMode = true) : (startAnalysis env).1 = none := by
  obtain ⟨id, url, demo, dres, vres, ares, tres, det, el⟩ := env
  have h2 : demo = true := h
  subst h2
  rfl

/-- C1 witness: a successful demo-mode run still resolves to `undefined`. -/
theorem c1_witness :
    envDemoOk.isDemoMode = true ∧ (startAnalysis envDemoOk).1 = none :=
  ⟨rfl, c1_demo_mode_returns_undefined envDemoOk rfl⟩

/-- A real-mode environment in which every adapter succeeds but the
transcript handed to the detect stage has no segments array, so the
fan-out itself reports `{success:false}`. -/
def envDetectStageFails : Env :=
  { analysisId := "job-c2"
    youtubeUrl := "https://youtu.be/xyz"
    isDemoMode := false
    demoResult := .ok { screenshot_path := "", audio_path := "" }
    videoResult := .ok { screenshotPath := "shot.png", audioPath := "aud.webm" }
    audioResult := .ok { wavPath := "aud.wav" }
    transcriptionResult := .ok { segments := none }
    detect := detectAllOne
    elapsed := 1234 }

/-- C2 (counterexample): a run in which the detect stage reports a
top-level failure (`{success:false}`, malformed transcript shape) is
still persisted with `status='completed'`, not `failed`: the orchestrator
only logs a warning on `!aiDetectionResult.success` and carries on. -/
theorem c2_counterexample :
    (processTranscriptionSegments envDetectStageFails.detect
        { segments := none }).success = false ∧
    (runRecord envDetectStageFails).status = "completed" ∧
    ¬((runRecord envDetectStageFails).status = "failed") :=
  ⟨rfl, rfl, by decide⟩

/-- C2 (amended): a top-level `{success:false}` from the detect stage does
not fail the job: the remaining code runs as on success, the job is
persisted `completed` with the fan-out's fallback empty segment list as
its transcript payload and a degenerate all-zero detection payload, and
the call returns the success shape. -/
theorem c2_amended_detect_failure_still_completes (env : Env)
    (v : VideoData) (a : AudioData)
    (hdemo : env.isDemoMode = false)
    (hv : env.videoResult = .ok v) (ha : env.audioResult = .ok a)
    (ht : env.transcriptionResult = .ok { segments := none }) :
    (processTranscriptionSegments env.detect { segments := none }).success = false ∧
    (runRecord env).status = "completed" ∧
    (runRecord env).transcription = some (.real []) ∧
    (runRecord env).ai_probabilities = some (.real 0 0 0) ∧
    (startAnalysis env).1 = some (.ok env.analysisId
      { id := env.analysisId
        youtube_url := env.youtubeUrl
        status := "completed"
        screenshot_path := v.screenshotPath
        audio_path := a.wavPath
        transcription := .real []
        ai_probabilities := .real 0 0 0
        processing_time := env.elapsed
        demo_mode := false }) := by
  obtain ⟨id, url, demo, dres, vres, ares, tres, det, el⟩ := env
  have h1 : demo = false := hdemo
  have h2 : vres = .ok v := hv
  have h3 : ares = .ok a := ha
  have h4 : tres = .ok { segments := none } := ht
  subst h1 h2 h3 h4
  exact ⟨rfl, rfl, rfl, rfl, rfl⟩

/-- C2 witness: concrete instantiation on `envDetectStageFails`. -/
theorem c2_witness :
    (processTranscriptionSegments envDetectStageFails.detect
        { segments := none }).success = false ∧
    (runRecord envDetectStageFails).status = "completed" ∧
    (runRecord envDetectStageFails).transcription = some (.real []) ∧
    (runRecord envDetectStageFails).ai_probabilities = some (.real 0 0 0) ∧
    (startAnalysis envDetectStageFails).1 = some (.ok envDetectStageFails.analysisId
      { id := envDetectStageFails.analysisId
        youtube_url := envDetectStageFails.youtubeUrl
        status := "completed"
        screenshot_path := "shot.png"
        audio_path := "aud.wav"
        transcription := .real []
        ai_probabilities := .real 0 0 0
        processing_time := envDetectStageFails.elapsed
        demo_mode := false }) :=
  c2_amended_detect_failure_still_completes envDetectStageFails
    { screenshotPath := "shot.png", audioPath := "aud.webm" }
    { wavPath := "aud.wav" } rfl rfl rfl rfl

/-- A real-mode environment failing at the first stage with zero measured
elapsed time (a failure inside the same millisecond as the start). -/
def envVideoFailZero : Env :=
  { analysisId := "job-c4"
    youtubeUrl := "https://youtu.be/qqq"
    isDemoMode := false
    demoResult := .ok { screenshot_path := "", audio_path := "" }
    videoResult := .fail "network down"
    audioResult := .ok { wavPath := "" }
    transcriptionResult := .ok { segments := some [] }
    detect := detectAllOne
    elapsed := 0 }

/-- C4 (counterexample): a run that fails with a measured elapsed time of
`0` ms leaves `processing_time` NULL: `updateStatus` only writes the
column when `additionalData.processingTime` is JS-truthy, and `0` is
falsy — so not every failed record has `processingTimeMs` populated. -/
theorem c4_counterexample :
    (runRecord envVideoFailZero).status = "failed" ∧
    (runRecord envVideoFailZero).processing_time = none :=
  ⟨rfl, rfl⟩

/-- C4 (amended): every failed job record has a populated (non-null)
`errorMessage` — all failure messages carry a non-empty literal prefix —
and has `processing_time = elapsed` whenever the measured elapsed time is
non-zero; a 0 ms elapsed time leaves the column NULL. -/
theorem c4_amended_failed_record_fields (env : Env)
    (h : (runRecord env).status = "failed") :
    (runRecord env).error_message ≠ none ∧
    (env.elapsed ≠ 0 → (runRecord env).processing_time = some env.elapsed) := by
  obtain ⟨id, url, demo, dres, vres, ares, tres, det, el⟩ := env
  cases demo with
  | true =>
      cases dres with
      | ok d =>
          have hc : ("completed" : String) = "failed" := h
          exact absurd hc (by decide)
      | fail e =>
          refine ⟨?_, fun hel => ?_⟩
          · show (if ("Demo analysis failed: " ++ e) = "" then none
                else some ("Demo analysis failed: " ++ e)) ≠ (none : Option String)
            rw [if_neg (append_ne_empty_left _ _ (by decide))]
            exact Option.some_ne_none _
          · show (if el = 0 then (none : Option Nat) else some el) = some el
            rw [if_neg hel]
  | false =>
      cases vres with
      | fail e =>
          refine ⟨?_, fun hel => ?_⟩
          · show (if ("Video processing failed: " ++ e) = "" then none
                else some ("Video processing failed: " ++ e)) ≠ (none : Option String)
            rw [if_neg (append_ne_empty_left _ _ (by decide))]
            exact Option.some_ne_none _
          · show (if el = 0 then (none : Option Nat) else some el) = some el
            rw [if_neg hel]
      | ok v =>
          cases ares with
          | fail e =>
              refine ⟨?_, fun hel => ?_⟩
              · show (if ("Audio conversion failed: " ++ e) = "" then none
                    else some ("Audio conversion failed: " ++ e)) ≠ (none : Option String)
                rw [if_neg (append_ne_empty_left _ _ (by decide))]
                exact Option.some_ne_none _
              · show (if el = 0 then (none : Option Nat) else some el) = some el
                rw [if_neg hel]
          | ok a =>
              cases tres with
              | fail e =>
                  refine ⟨?_, fun hel => ?_⟩
                  · show (if ("Transcription failed: " ++ e) = "" then none
                        else some ("Transcription failed: " ++ e)) ≠ (none : Option String)
                    rw [if_neg (append_ne_empty_left _ _ (by decide))]
                    exact Option.some_ne_none _
                  · show (if el = 0 then (none : Option Nat) else some el) = some el
                    rw [if_neg hel]
              | ok t =>
                  have hc : ("completed" : String) = "failed" := h
                  exact absurd hc (by decide)

/-- A demo-mode environment whose simulation fails, with a positive
elapsed time. -/
def envDemoFail : Env :=
  { analysisId := "job-c4w"
    youtubeUrl := "https://youtu.be/fff"
    isDemoMode := true
    demoResult := .fail "disk full"
    videoResult := .ok { screenshotPath := "", audioPath := "" }
    audioResult := .ok { wavPath := "" }
    transcriptionResult := .ok { segments := some [] }
    detect := detectAllOne
    elapsed := 7 }

/-- C4 witness: a concrete failed run with 7 ms elapsed has both fields
populated. -/
theorem c4_witness :
    (runRecord envDemoFail).error_message ≠ none ∧
    (runRecord envDemoFail).processing_time = some 7 :=
  ⟨(c4_amended_failed_record_fields envDemoFail rfl).1,
   (c4_amended_failed_record_fields envDemoFail rfl).2 (by decide)⟩

/-- C7: when the transcode (audio conversion) adapter returns
`{success:false, error:"bad codec"}` in real mode, the transcribe and
detect stages are never invoked, the job record ends `failed` with an
error message containing "bad codec", and no detection payload is passed
to any record write (so the record's `ai_probabilities` stays NULL). -/
theorem c7_transcode_failure_aborts (env : Env) (v : VideoData)
    (hdemo : env.isDemoMode = false)
    (hv : env.videoResult = .ok v)
    (ha : env.audioResult = .fail "bad codec") :
    Event.callTranscribe ∉ (startAnalysis env).2 ∧
    Event.callDetect ∉ (startAnalysis env).2 ∧
    (runRecord env).status = "failed" ∧
    (∃ pre post,
      (runRecord env).error_message = some (pre ++ "bad codec" ++ post)) ∧
    (∀ i st d, Event.dbUpdate i st d ∈ (startAnalysis env).2 →
      d.aiProbabilities = none) ∧
    (runRecord env).ai_probabilities = none := by
  obtain ⟨id, url, demo, dres, vres, ares, tres, det, el⟩ := env
  have h1 : demo = false := hdemo
  have h2 : vres = .ok v := hv
  have h3 : ares = .fail "bad codec" := ha
  subst h1 h2 h3
  refine ⟨?_, ?_, rfl, ⟨"Audio conversion failed: ", "", ?_⟩, ?_, rfl⟩
  · simp [startAnalysis, startAnalysisTry]
  · simp [startAnalysis, startAnalysisTry]
  · show (if ("Audio conversion failed: " ++ "bad codec") = "" then none
        else some ("Audio conversion failed: " ++ "bad codec"))
      = some ("Audio conversion failed: " ++ "bad codec" ++ "")
    rw [if_neg (by decide)]
    decide
  · intro i st d hmem
    simp [startAnalysis, startAnalysisTry] at hmem
    rcases hmem with ⟨-, -, rfl⟩ | ⟨-, -, rfl⟩ | ⟨-, -, rfl⟩ <;> rfl

/-- A real-mode environment whose transcode stage fails with "bad codec". -/
def envBadCodec : Env :=
  { analysisId := "job-c7"
    youtubeUrl := "https://youtu.be/c7"
    isDemoMode := false
    demoResult := .ok { screenshot_path := "", audio_path := "" }
    videoResult := .ok { screenshotPath := "s7.png", audioPath := "a7.webm" }
    audioResult := .fail "bad codec"
    transcriptionResult := .ok { segments := some [] }
    detect := detectAllOne
    elapsed := 42 }

/-- C7 witness: concrete instantiation on `envBadCodec`. -/
theorem c7_witness :
    Event.callTranscribe ∉ (startAnalysis envBadCodec).2 ∧
    Event.callDetect ∉ (startAnalysis envBadCodec).2 ∧
    (runRecord envBadCodec).status = "failed" ∧
    (∃ pre post,
      (runRecord envBadCodec).error_message = some (pre ++ "bad codec" ++ post)) ∧
    (∀ i st d, Event.dbUpdate i st d ∈ (startAnalysis envBadCodec).2 →
      d.aiProbabilities = none) ∧
    (runRecord envBadCodec).ai_probabilities = none :=
  c7_transcode_failure_aborts envBadCodec
    { screenshotPath := "s7.png", audioPath := "a7.webm" } rfl rfl rfl

/-- C9: every run — demo or real, whatever the stage outcomes — begins by
creating the job row (`insertAnalysis`, `status='pending'`) and then
advancing it to `status='processing'`; these are the first two events of
the trace, so both record writes precede every external-stage
invocation. -/
theorem c9_record_writes_precede_stages (env : Env) :
    ∃ rest, (startAnalysis env).2 =
      Event.dbInsert env.analysisId env.youtubeUrl ::
        Event.dbUpdate env.analysisId "processing" {} :: rest := by
  obtain ⟨id, url, demo, dres, vres, ares, tres, det, el⟩ := env
  cases demo <;> cases dres <;> cases vres <;> cases ares <;> cases tres <;>
    exact ⟨_, rfl⟩

/-! ## The read side: `getAnalysisResult` and the `/api/result/:id` route

The read path takes whatever strings are stored in the SQLite row (they
are arbitrary TEXT columns from the store's point of view), so here the
payload columns are plain `Option String` and `JSON.parse` is an
abstract partial parser `parse : String → Option α` (an exception is
`none`). -/

/-- One row as returned by `dbOperations.getAnalysisById` (NULL columns
become `none`). -/
structure DbRow where
  id : String
  youtube_url : String
  status : String
  screenshot_path : Option String := none
  audio_path : Option String := none
  transcription : Option String := none
  ai_probabilities : Option String := none
  error_message : Option String := none
  processing_time : Option Int := none
  created_at : String := ""
  updated_at : String := ""

/-- JS truthiness filter on an optional string column: `null` and `""`
are falsy. -/
def jsTruthyOpt : Option String → Option String
  | some s => if s = "" then none else some s
  | none => none

/-- The JSON-parsing block of `getAnalysisResult`
(analysisService.js lines 226-238): both `JSON.parse` calls sit in one
try/catch, so a parse exception on `result.transcription` is caught
before `result.ai_probabilities` is ever parsed — both locals keep their
initial `null`; if only the second parse throws, the first keeps its
parsed value. -/
def parsePayloads {α : Type} (parse : String → Option α)
    (tr ap : Option String) : Option α × Option α :=
  match jsTruthyOpt tr with
  | some s =>
      match parse s with
      | none => (none, none)
      | some v => (some v, (jsTruthyOpt ap).bind parse)
  | none => (none, (jsTruthyOpt ap).bind parse)

/-- The `result` object assembled by `getAnalysisResult`
(analysisService.js lines 240-255). -/
structure ResultView (α : Type) where
  id : String
  youtube_url : String
  status : String
  screenshot_path : Option String
  audio_path : Option String
  transcription : Option α
  ai_probabilities : Option α
  error_message : Option String
  processing_time : Option Int
  created_at : String
  updated_at : String

/-- Return shape of `AnalysisService.getAnalysisResult`:
`{success:true, result}` or `{success:false, error}`. -/
inductive GetResult (α : Type) where
  | success (result : ResultView α)
  | failure (error : String)

/-- `AnalysisService.getAnalysisResult(analysisId)`
(analysisService.js lines 214-263), applied to the row the store returned
(`none` when no record exists): a missing row gives the distinct
`{success:false, error:"Analysis not found"}` outcome; an existing row is
projected, with the payload columns run through the shared parse block. -/
def getAnalysisResult {α : Type} (parse : String → Option α)
    (row : Option DbRow) : GetResult α :=
  match row with
  | none => .failure "Analysis not found"
  | some r =>
      let p := parsePayloads parse r.transcription r.ai_probabilities
      .success
        { id := r.id
          youtube_url := r.youtube_url
          status := r.status
          screenshot_path := r.screenshot_path
          audio_path := r.audio_path
          transcription := p.1
          ai_probabilities := p.2
          error_message := r.error_message
          processing_time := r.processing_time
          created_at := r.created_at
          updated_at := r.updated_at }

/-- The JSON body+status an invocation of `router.get("/:id")`
(result.js lines 309-396) replies with, flattened to one field set: a
field is `none` when that reply shape omits it. -/
structure ApiResponse (α : Type) where
  httpStatus : Nat
  success : Bool
  error : Option String := none
  message : Option String := none
  analysis_id : Option String := none
  status : Option String := none
  youtube_url : Option String := none
  screenshot_path : Option String := none
  audio_path : Option String := none
  transcription : Option α := none
  ai_probabilities : Option α := none
  error_message : Option String := none
  processing_time : Option Int := none
  created_at : Option String := none
  updated_at : Option String := none

/-- `router.get("/:id")` of result.js: reject a malformed id with 400
before any lookup; otherwise project the fetched row through
`getAnalysisResult` and reply 404 on the "Analysis not found" outcome,
500 on any other failure, and 200 with the status-appropriate projection
(in-progress / failed / completed) on success. -/
def resultEndpoint {α : Type} (parse : String → Option α) (idValid : Bool)
    (id : String) (row : Option DbRow) : ApiResponse α :=
  if idValid then
    match getAnalysisResult parse row with
    | .failure e =>
        if e = "Analysis not found" then
          { httpStatus := 404, success := false
            error := some "Analysis not found"
            message := some "The requested analysis ID does not exist" }
        else
          { httpStatus := 500, success := false, error := some e }
    | .success v =>
        if v.status = "pending" ∨ v.status = "processing" then
          { httpStatus := 200, success := true
            analysis_id := some id, status := some v.status
            message := some "Analysis is still in progress"
            created_at := some v.created_at, updated_at := some v.updated_at }
        else if v.status = "failed" then
          { httpStatus := 200, success := true
            analysis_id := some id, status := some v.status
            error_message := v.error_message
            processing_time := v.processing_time
            created_at := some v.created_at, updated_at := some v.updated_at }
        else
          { httpStatus := 200, success := true
            analysis_id := some id, status := some v.status
            youtube_url := some v.youtube_url
            screenshot_path := v.screenshot_path
            audio_path := v.audio_path
            transcription := v.transcription
            ai_probabilities := v.ai_probabilities
            processing_time := v.processing_time
            created_at := some v.created_at, updated_at := some v.updated_at }
  else
    { httpStatus := 400, success := false
      error := some "Invalid analysis ID format" }

/-- An existing row always yields a 200 reply with `success:true` and the
row's own status echoed, whichever of the three success branches fires. -/
theorem resultEndpoint_some_shape {α : Type} (parse : String → Option α)
    (id : String) (row : DbRow) :
    (resultEndpoint parse true id (some row)).success = true ∧
    (resultEndpoint parse true id (some row)).httpStatus = 200 ∧
    (resultEndpoint parse true id (some row)).status = some row.status := by
  have hends : resultEndpoint parse true id (some row) =
      (if row.status = "pending" ∨ row.status = "processing" then
        ({ httpStatus := 200, success := true
           analysis_id := some id, status := some row.status
           message := some "Analysis is still in progress"
           created_at := some row.created_at
           updated_at := some row.updated_at } : ApiResponse α)
       else if row.status = "failed" then
        { httpStatus := 200, success := true
          analysis_id := some id, status := some row.status
          error_message := row.error_message
          processing_time := row.processing_time
          created_at := some row.created_at
          updated_at := some row.updated_at }
       else
        { httpStatus := 200, success := true
          analysis_id := some id, status := some row.status
          youtube_url := some row.youtube_url
          screenshot_path := row.screenshot_path
          audio_path := row.audio_path
          transcription := (parsePayloads parse row.transcription row.ai_probabilities).1
          ai_probabilities := (parsePayloads parse row.transcription row.ai_probabilities).2
          processing_time := row.processing_time
          created_at := some row.created_at
          updated_at := some row.updated_at }) := rfl
  rw [hends]
  by_cases h1 : row.status = "pending" ∨ row.status = "processing"
  · rw [if_pos h1]
    exact ⟨rfl, rfl, rfl⟩
  · rw [if_neg h1]
    by_cases h2 : row.status = "failed"
    · rw [if_pos h2]
      exact ⟨rfl, rfl, rfl⟩
    · rw [if_neg h2]
      exact ⟨rfl, rfl, rfl⟩

/-- C8: reading a job identifier with no record yields the distinct
not-found outcome — `{success:false, error:"Analysis not found"}` from
`getAnalysisResult`, HTTP 404 with `success:false` and no `status` field
from the route — while any existing record (in particular a failed job)
yields `{success:true, ...}` and an HTTP 200 reply carrying the record's
own status; the two shapes are never conflated. -/
theorem c8_not_found_distinct_from_failed {α : Type}
    (parse : String → Option α) (id : String) (row : DbRow) :
    getAnalysisResult parse (none : Option DbRow) = .failure "Analysis not found" ∧
    (∃ v, getAnalysisResult parse (some row) = .success v) ∧
    (resultEndpoint parse true id (none : Option DbRow)).httpStatus = 404 ∧
    (resultEndpoint parse true id (none : Option DbRow)).success = false ∧
    (resultEndpoint parse true id (none : Option DbRow)).status = none ∧
    (resultEndpoint parse true id (some row)).success = true ∧
    (resultEndpoint parse true id (some row)).httpStatus = 200 ∧
    (row.status = "failed" →
      (resultEndpoint parse true id (some row)).status = some "failed") := by
  have h := resultEndpoint_some_shape parse id row
  refine ⟨rfl, ⟨_, rfl⟩, rfl, rfl, rfl, h.1, h.2.1, fun hf => ?_⟩
  rw [h.2.2, hf]

/-- A parser for concrete read-side evaluations: parses exactly the
string "ok". -/
def parseOk : String → Option Nat := fun s => if s = "ok" then some 1 else none

/-- A stored row of a failed job. -/
def rowFailed : DbRow :=
  { id := "r8"
    youtube_url := "u8"
    status := "failed"
    error_message := some "boom"
    processing_time := some 5
    created_at := "c8"
    updated_at := "d8" }

/-- C8 witness: concrete instantiation against a stored failed job. -/
theorem c8_witness :
    getAnalysisResult parseOk (none : Option DbRow) = .failure "Analysis not found" ∧
    (∃ v, getAnalysisResult parseOk (some rowFailed) = .success v) ∧
    (resultEndpoint parseOk true "r8" (none : Option DbRow)).httpStatus = 404 ∧
    (resultEndpoint parseOk true "r8" (none : Option DbRow)).success = false ∧
    (resultEndpoint parseOk true "r8" (none : Option DbRow)).status = none ∧
    (resultEndpoint parseOk true "r8" (some rowFailed)).success = true ∧
    (resultEndpoint parseOk true "r8" (some rowFailed)).httpStatus = 200 ∧
    (resultEndpoint parseOk true "r8" (some rowFailed)).status = some "failed" := by
  have h := c8_not_found_distinct_from_failed parseOk "r8" rowFailed
  exact ⟨h.1, h.2.1, h.2.2.1, h.2.2.2.1, h.2.2.2.2.1, h.2.2.2.2.2.1,
    h.2.2.2.2.2.2.1, h.2.2.2.2.2.2.2 rfl⟩

/-- A failing parse of the stored transcription makes the whole shared
try/catch bail out before the detection payload is parsed. -/
theorem parsePayloads_left_fail {α : Type} (parse : String → Option α)
    (ap : Option String) (s : String) (hs : s ≠ "")
    (hparse : parse s = none) :
    parsePayloads parse (some s) ap = (none, none) := by
  simp [parsePayloads, jsTruthyOpt, hs, hparse]

/-- C10: when the stored transcription string is present but fails to
parse, the projected view has `transcription = null` and — because both
`JSON.parse` calls share one try/catch — `ai_probabilities = null` as
well, even when the stored detection string on its own parses fine; the
read still returns the success shape. -/
theorem c10_parse_failure_nulls_both_fields {α : Type}
    (parse : String → Option α) (row : DbRow) (s : String) (w : α)
    (htr : row.transcription = some s) (hs : s ≠ "")
    (hparse : parse s = none)
    (_hap : (jsTruthyOpt row.ai_probabilities).bind parse = some w) :
    ∃ v, getAnalysisResult parse (some row) = .success v ∧
      v.transcription = none ∧ v.ai_probabilities = none := by
  refine ⟨_, rfl, ?_, ?_⟩
  · show (parsePayloads parse row.transcription row.ai_probabilities).1 = none
    rw [htr, parsePayloads_left_fail parse _ s hs hparse]
  · show (parsePayloads parse row.transcription row.ai_probabilities).2 = none
    rw [htr, parsePayloads_left_fail parse _ s hs hparse]

/-- A stored completed row whose transcription string is corrupt while its
detection string parses. -/
def rowBadPayload : DbRow :=
  { id := "r10"
    youtube_url := "u10"
    status := "completed"
    transcription := some "bad"
    ai_probabilities := some "ok"
    created_at := "c10"
    updated_at := "d10" }

/-- C10 witness: on `rowBadPayload`, `parseOk` fails on the stored
transcription ("bad") and succeeds on the stored detection payload
("ok"), yet both projected fields are null and the read succeeds. -/
theorem c10_witness :
    ∃ v, getAnalysisResult parseOk (some rowBadPayload) = .success v ∧
      v.transcription = none ∧ v.ai_probabilities = none :=
  c10_parse_failure_nulls_both_fields parseOk rowBadPayload "bad" 1
    rfl (by decide) rfl rfl
end SpeedForce
